import Mathlib

/-!
Shallow embedding of `update_stocks.py` (stock-price refresh script).

Prices are modelled as rationals, provider JSON payloads as structured
Lean data, and the network as explicit response oracles passed to the
functions that would perform HTTP calls.  Python truthiness on optional
floats and Python banker rounding (`round`) are modelled explicitly.
-/

/-- Transport-level failure: an HTTP error status or a connection error
(anything that makes `SESSION.get(...)` / `raise_for_status` raise). -/
inductive TransportError where
  | httpStatus (code : Nat)
  | connection
deriving DecidableEq

/-- Retry policy constructed by `build_session` (src/update_stocks.py
lines 31-48): `Retry(total=5, connect=5, read=5, backoff_factor=0.8,
status_forcelist=[429, 500, 502, 503, 504], allowed_methods=[GET])`. -/
structure RetryConfig where
  total : Nat
  connect : Nat
  read : Nat
  backoff_factor : ℚ
  status_forcelist : List Nat
deriving DecidableEq

/-- The retry configuration of the shared HTTP session (`build_session`). -/
def build_session_retry : RetryConfig :=
  { total := 5, connect := 5, read := 5, backoff_factor := 4/5,
    status_forcelist := [429, 500, 502, 503, 504] }

/-- One element of `data["quoteResponse"]["result"]` in the v7 quote
endpoint payload: the three fields the adapter reads, each possibly
absent (Python `None` / missing key). -/
structure QuoteItem where
  regularMarketPrice : Option ℚ
  regularMarketPreviousClose : Option ℚ
  marketCap : Option ℤ
deriving DecidableEq

/-- Parsed body of a v7 quote response: `quoteResponse.result` as a list
(possibly empty, e.g. for an unknown symbol). -/
structure QuoteBody where
  result : List QuoteItem
deriving DecidableEq

/-- One element of `result[0]["indicators"]["quote"]` in the v8 chart
payload: the `close` array, whose entries may be null. -/
structure ChartQuote where
  close : List (Option ℚ)
deriving DecidableEq

/-- One element of `data["chart"]["result"]` in the v8 chart payload. -/
structure ChartResult where
  quote : List ChartQuote
deriving DecidableEq

/-- Parsed body of a v8 chart response. -/
structure ChartBody where
  result : List ChartResult
deriving DecidableEq

/-- The dictionary both fetch helpers return on success: current price
and previous close (possibly `None`), and a market cap that defaults
to `0` when absent. -/
structure RawQuote where
  currentPrice : Option ℚ
  previousClose : Option ℚ
  marketCap : ℤ
deriving DecidableEq

/-- A provider HTTP request, as issued by the two fetch helpers: the
quote endpoint takes a `symbols` list parameter, the chart endpoint a
single path symbol. -/
inductive ProviderRequest where
  | quoteReq (symbols : List String)
  | chartReq (symbol : String)
deriving DecidableEq

/-- The provider requests one call of `fetch_from_quote symbol` issues:
exactly the single GET of `YF_QUOTE_URL` with `params={symbols: symbol}`
(src/update_stocks.py line 63); the function body contains no loop. -/
def fetch_from_quote_requests (symbol : String) : List ProviderRequest :=
  [ProviderRequest.quoteReq [symbol]]

/-- The provider requests one call of `fetch_from_chart symbol` issues:
exactly the single GET of `YF_CHART_URL.format(symbol=symbol)`
(src/update_stocks.py lines 88-92); the function body contains no loop. -/
def fetch_from_chart_requests (symbol : String) : List ProviderRequest :=
  [ProviderRequest.chartReq symbol]

/-- Embeds `fetch_from_quote` (src/update_stocks.py lines 58-80) as a
function of the transport outcome for its one GET.  Any transport
exception is caught and turned into `None`; an empty result list yields
`None`; otherwise the three fields of the first result are extracted,
with `marketCap` defaulting to `0` (`q.get("marketCap", 0) or 0`). -/
def fetch_from_quote (resp : Except TransportError QuoteBody) : Option RawQuote :=
  match resp with
  | .error _ => none
  | .ok body =>
    match body.result with
    | [] => none
    | q :: _ =>
      some { currentPrice := q.regularMarketPrice,
             previousClose := q.regularMarketPreviousClose,
             marketCap := q.marketCap.getD 0 }

/-- Embeds `fetch_from_chart` (src/update_stocks.py lines 82-117) as a
function of the transport outcome for its one GET.  Any transport
exception yields `None`; empty `result`, empty `quote` list, or a close
array with no non-null entry each yield `None`; otherwise the current
price is the last valid close and the previous close the one before it
(falling back to the current price when only one close exists), with
`marketCap = 0`. -/
def fetch_from_chart (resp : Except TransportError ChartBody) : Option RawQuote :=
  match resp with
  | .error _ => none
  | .ok body =>
    match body.result with
    | [] => none
    | r :: _ =>
      match r.quote with
      | [] => none
      | cq :: _ =>
        let closes : List ℚ := cq.close.filterMap id
        match closes.getLast? with
        | none => none
        | some current =>
          let previous : ℚ :=
            if 2 ≤ closes.length then closes.dropLast.getLastD current else current
          some { currentPrice := some current,
                 previousClose := some previous,
                 marketCap := 0 }

/-- Python truthiness of an optional float: `None` and `0.0` are falsy. -/
def pyTruthy : Option ℚ → Bool
  | none => false
  | some x => decide (x ≠ 0)

/-- Python `a or b` on optional floats (used by the merge on
src/update_stocks.py lines 144-145). -/
def pyOr (a b : Option ℚ) : Option ℚ :=
  if pyTruthy a then a else b

/-- Python `round(x)`: round half to even (banker rounding). -/
def pyRound (q : ℚ) : ℤ :=
  if q - ⌊q⌋ < 1/2 then ⌊q⌋
  else if (1 : ℚ)/2 < q - ⌊q⌋ then ⌊q⌋ + 1
  else if ⌊q⌋ % 2 = 0 then ⌊q⌋ else ⌊q⌋ + 1

/-- Python `round(x, 2)`: round half to even at two decimal places. -/
def pyRound2 (q : ℚ) : ℚ :=
  (pyRound (q * 100) : ℚ) / 100

/-- The final record `get_stock_data` returns on success
(src/update_stocks.py lines 159-163). -/
structure StockData where
  currentPrice : ℚ
  previousClose : ℚ
  marketCap : ℤ
deriving DecidableEq

/-- Embeds the number-cleanup step of `get_stock_data`
(src/update_stocks.py lines 148-163): `curr = float(cp or 0)`,
`prev = float(pc or 0)`, market cap scaled to 100-million units via
`round(mcap_raw / 100_000_000)` when positive, and `previousClose`
coerced to `curr` when `prev` is not positive. -/
def normalizeData (d : RawQuote) : StockData :=
  let curr : ℚ := d.currentPrice.getD 0
  let prev : ℚ := d.previousClose.getD 0
  let mcap_eok : ℤ :=
    if 0 < d.marketCap then pyRound ((d.marketCap : ℚ) / 100000000) else 0
  { currentPrice := curr,
    previousClose := if 0 < prev then prev else curr,
    marketCap := mcap_eok }

/-- Embeds one iteration of the attempt loop in `get_stock_data`
(src/update_stocks.py lines 131-163), given the parsed results of the
two fetch helpers.  Returns the produced record (`none` means the
Python `continue`) plus a flag recording whether `fetch_from_chart`
was called during the attempt.  When the quote result is present but
`currentPrice` or `previousClose` is null, the chart result is merged
via Python `or` (falsy-based) field updates. -/
def attemptOnce (qres cres : Option RawQuote) : Option StockData × Bool :=
  match qres with
  | none =>
    match cres with
    | none => (none, true)
    | some c => (some (normalizeData c), true)
  | some q =>
    if q.currentPrice.isNone || q.previousClose.isNone then
      let merged : RawQuote :=
        match cres with
        | some c =>
          { q with currentPrice := pyOr q.currentPrice c.currentPrice,
                   previousClose := pyOr q.previousClose c.previousClose }
        | none => q
      (some (normalizeData merged), true)
    else
      (some (normalizeData q), false)

/-- Attempt loop of `get_stock_data` (src/update_stocks.py lines
124-172) over per-attempt transport outcomes, threading the
chart-consulted flag; the loop retries (next oracle pair) exactly when
an attempt produced no record, and returns `none` when all attempts
are exhausted. -/
def get_stock_data_go :
    List (Except TransportError QuoteBody × Except TransportError ChartBody) →
    Bool → Option StockData × Bool
  | [], consulted => (none, consulted)
  | (qresp, cresp) :: rest, consulted =>
    let a := attemptOnce (fetch_from_quote qresp) (fetch_from_chart cresp)
    match a.1 with
    | some d => (some d, consulted || a.2)
    | none => get_stock_data_go rest (consulted || a.2)

/-- Embeds `get_stock_data` (src/update_stocks.py lines 119-172): the
network is an oracle list supplying, for each of the up to
`retry_count` attempts, the transport outcome of the quote GET and of
the chart GET the attempt would make.  Returns the resolved record (or
`none`) and whether the chart endpoint was consulted in any attempt. -/
def get_stock_data
    (responses : List (Except TransportError QuoteBody × Except TransportError ChartBody)) :
    Option StockData × Bool :=
  get_stock_data_go responses false

/-- How `main` classifies a resolution (src/update_stocks.py line 255):
resolved iff a record was returned and its `currentPrice` is positive;
anything else is counted as a failure. -/
def resolvedOk (r : Option StockData) : Bool :=
  match r with
  | none => false
  | some d => decide (0 < d.currentPrice)

/-- Python `str.isspace` on the characters `strip()` removes, restricted
to the ASCII whitespace that can occur in the title text. -/
def pyIsSpace (c : Char) : Bool :=
  c = ' ' || c = '\t' || c = '\n' || c = '\r'

/-- Python `str.upper()` on one ASCII character. -/
def pyCharUpper (c : Char) : Char :=
  if 'a' ≤ c && c ≤ 'z' then Char.ofNat (c.toNat - 32) else c

/-- Python `str.strip()`: drop whitespace from both ends. -/
def pyStripChars (s : List Char) : List Char :=
  ((s.dropWhile pyIsSpace).reverse.dropWhile pyIsSpace).reverse

/-- Python `(ticker or "").strip().upper()` (src/update_stocks.py
line 245). -/
def pyStripUpper (s : String) : String :=
  String.mk ((pyStripChars s.data).map pyCharUpper)

/-- One page of the Notion database, reduced to the fields `main`
reads: the page id and the extracted title text of the ticker property
(`none` covers a missing/ill-typed title property and empty title
arrays, all of which leave `ticker = None` in the source). -/
structure NotionPage where
  pageId : Nat
  rawTitle : Option String
deriving DecidableEq

/-- Ticker extraction of `main` (src/update_stocks.py lines 239-245):
normalized title text, with `""` standing for every falsy outcome that
makes the page be skipped. -/
def extractTicker (p : NotionPage) : String :=
  pyStripUpper (p.rawTitle.getD "")

/-- The properties payload `update_notion_page` sends to
`notion.pages.update` (src/update_stocks.py lines 184-189): current
price, previous close, market cap (100-million units), and the
wall-clock timestamp of the write. -/
structure NotionProps where
  price : ℚ
  prevClose : ℚ
  marketCapField : ℤ
  updatedAt : Nat
deriving DecidableEq

/-- Builds the written properties from the resolved record and the
current time (`datetime.now(KST)` modelled as an explicit input). -/
def update_notion_props (sd : StockData) (now : Nat) : NotionProps :=
  { price := sd.currentPrice,
    prevClose := sd.previousClose,
    marketCapField := sd.marketCap,
    updatedAt := now }

/-- The change percentage `update_notion_page` logs
(src/update_stocks.py line 182): `round(((curr - prev) / prev) * 100, 2)`
when `prev > 0`, else `0.0`. -/
def change_percent (sd : StockData) : ℚ :=
  if 0 < sd.previousClose then
    pyRound2 ((sd.currentPrice - sd.previousClose) / sd.previousClose * 100)
  else 0

/-- End-of-run counters of `main` (src/update_stocks.py lines 230-232):
`updated_count`, `error_count`, `skipped_count`. -/
structure Summary where
  updated : Nat
  error : Nat
  skipped : Nat
deriving DecidableEq

/-- Observable state threaded through the page loop of `main`: the
counters, the sequence of symbols passed to `get_stock_data` (one entry
per fetch call, in order), and the sequence of write-back calls issued
to the record store (page id paired with the written record). -/
structure LoopState where
  summary : Summary
  fetches : List String
  writes : List (Nat × StockData)
deriving DecidableEq

/-- Embeds one iteration of the page loop in `main`
(src/update_stocks.py lines 234-268).  `fetch` abstracts
`get_stock_data` (its result for a given symbol this run), `writeOk`
abstracts whether `update_notion_page` reports success for a page.  A
falsy ticker is skipped; otherwise the symbol is fetched; a missing
record or non-positive `currentPrice` counts as an error; otherwise the
write is issued and the success flag decides between `updated_count`
and `error_count`. -/
def main_step (fetch : String → Option StockData) (writeOk : Nat → Bool)
    (st : LoopState) (p : NotionPage) : LoopState :=
  if extractTicker p = "" then
    { st with summary := { st.summary with skipped := st.summary.skipped + 1 } }
  else
    match fetch (extractTicker p) with
    | some d =>
      if 0 < d.currentPrice then
        if writeOk p.pageId then
          { st with fetches := st.fetches ++ [extractTicker p],
                    writes := st.writes ++ [(p.pageId, d)],
                    summary := { st.summary with updated := st.summary.updated + 1 } }
        else
          { st with fetches := st.fetches ++ [extractTicker p],
                    writes := st.writes ++ [(p.pageId, d)],
                    summary := { st.summary with error := st.summary.error + 1 } }
      else
        { st with fetches := st.fetches ++ [extractTicker p],
                  summary := { st.summary with error := st.summary.error + 1 } }
    | none =>
      { st with fetches := st.fetches ++ [extractTicker p],
                summary := { st.summary with error := st.summary.error + 1 } }

/-- The page loop of `main` over the fetched pages, from empty counters
and empty traces. -/
def main_run (fetch : String → Option StockData) (writeOk : Nat → Bool)
    (pages : List NotionPage) : LoopState :=
  pages.foldl (main_step fetch writeOk) ⟨⟨0, 0, 0⟩, [], []⟩

/-- The provider dispatches of one run, grouped as the per-call symbol
lists: `main` calls `get_stock_data(ticker)` once per non-skipped page,
so every dispatched request carries exactly one symbol. -/
def dispatchedBatches (fetch : String → Option StockData) (writeOk : Nat → Bool)
    (pages : List NotionPage) : List (List String) :=
  ((main_run fetch writeOk pages).fetches).map (fun t => [t])

/-- Concrete fixture: a quote-endpoint body whose first result carries a
present but zero `regularMarketPrice` and a positive previous close. -/
def quoteBodyZeroPrice : QuoteBody :=
  { result := [{ regularMarketPrice := some 0,
                 regularMarketPreviousClose := some 1,
                 marketCap := some 0 }] }

/-- Concrete fixture: a chart-endpoint body holding two valid daily
closes, 9 then 10. -/
def chartBodyGood : ChartBody :=
  { result := [{ quote := [{ close := [some 9, some 10] }] }] }

/-- Concrete fixture: response oracle for one `get_stock_data` attempt in
which the quote endpoint answers with a zero price and the chart
endpoint would answer with valid data. -/
def oracleZeroPrice :
    List (Except TransportError QuoteBody × Except TransportError ChartBody) :=
  [(Except.ok quoteBodyZeroPrice, Except.ok chartBodyGood)]

/-- Concrete fixture: a resolved record with current price 10, previous
close 9 and no market cap. -/
def sdTen : StockData := { currentPrice := 10, previousClose := 9, marketCap := 0 }

/-- Concrete fixture: 95 pages with pairwise distinct two-letter
tickers. -/
def pages95 : List NotionPage :=
  (List.range 95).map
    (fun i => { pageId := i,
                rawTitle := some (String.mk
                  [Char.ofNat (65 + i / 26), Char.ofNat (65 + i % 26)]) })

/-- Concrete fixture: two pages carrying the same ticker. -/
def dupPages : List NotionPage :=
  [{ pageId := 1, rawTitle := some "AAPL" },
   { pageId := 2, rawTitle := some "AAPL" }]

/-- Concrete fixture: three pages with tickers AAA, BBB, CCC. -/
def pages3 : List NotionPage :=
  [{ pageId := 1, rawTitle := some "AAA" },
   { pageId := 2, rawTitle := some "BBB" },
   { pageId := 3, rawTitle := some "CCC" }]

/-- Concrete fixture: a resolution in which symbol BBB fails and every
other symbol resolves to `sdTen`. -/
def fetch3 : String → Option StockData :=
  fun t => if t = "BBB" then none else some sdTen

/-! ## Helper lemmas about the page loop -/

/-- One loop iteration appends the extracted ticker to the fetch trace
exactly when the page is not skipped. -/
theorem main_step_fetches (f : String → Option StockData) (w : Nat → Bool)
    (st : LoopState) (p : NotionPage) :
    (main_step f w st p).fetches =
      st.fetches ++ (if extractTicker p = "" then [] else [extractTicker p]) := by
  unfold main_step
  by_cases h : extractTicker p = ""
  · simp [h]
  · simp only [h, if_false, if_neg h]
    cases f (extractTicker p) with
    | none => simp
    | some d => by_cases hd : 0 < d.currentPrice <;> by_cases hw : w p.pageId <;>
        simp [hd, hw]

/-- The fetch trace accumulated by the loop is the list of non-empty
extracted tickers, one entry per non-skipped page, in page order. -/
theorem main_foldl_fetches (f : String → Option StockData) (w : Nat → Bool)
    (pages : List NotionPage) : ∀ st : LoopState,
    (pages.foldl (main_step f w) st).fetches =
      st.fetches ++ ((pages.map extractTicker).filter (fun t => !(t == ""))) := by
  induction pages with
  | nil => intro st; simp
  | cons p rest ih =>
    intro st
    simp only [List.foldl_cons, List.map_cons, List.filter_cons]
    rw [ih, main_step_fetches]
    by_cases h : extractTicker p = ""
    · simp [h]
    · simp [h, List.append_assoc]

/-- One loop iteration never removes an already-issued write. -/
theorem main_step_writes_subset (f : String → Option StockData) (w : Nat → Bool)
    (st : LoopState) (p : NotionPage) :
    ∀ x ∈ st.writes, x ∈ (main_step f w st p).writes := by
  intro x hx
  unfold main_step
  by_cases h : extractTicker p = ""
  · simpa [h] using hx
  · simp only [h, if_false, if_neg h]
    cases f (extractTicker p) with
    | none => simpa using hx
    | some d =>
      by_cases hd : 0 < d.currentPrice <;> by_cases hw : w p.pageId <;>
        simp [hd, hw, List.mem_append, hx]

/-- The whole loop never removes an already-issued write. -/
theorem main_foldl_writes_subset (f : String → Option StockData) (w : Nat → Bool)
    (pages : List NotionPage) : ∀ st : LoopState,
    ∀ x ∈ st.writes, x ∈ (pages.foldl (main_step f w) st).writes := by
  induction pages with
  | nil => intro st x hx; simpa using hx
  | cons p rest ih =>
    intro st x hx
    simp only [List.foldl_cons]
    exact ih (main_step f w st p) x (main_step_writes_subset f w st p x hx)

/-- A non-skipped page whose symbol resolves to a valid record has its
write issued by its own iteration. -/
theorem main_step_writes_hit (f : String → Option StockData) (w : Nat → Bool)
    (st : LoopState) (p : NotionPage) (d : StockData)
    (h1 : extractTicker p ≠ "") (h2 : f (extractTicker p) = some d)
    (h3 : 0 < d.currentPrice) :
    (p.pageId, d) ∈ (main_step f w st p).writes := by
  unfold main_step
  simp only [h2, if_neg h1]
  by_cases hw : w p.pageId <;> simp [h3, hw]

/-- Each loop iteration increments exactly one of the three counters. -/
theorem main_step_summary_total (f : String → Option StockData) (w : Nat → Bool)
    (st : LoopState) (p : NotionPage) :
    (main_step f w st p).summary.updated + (main_step f w st p).summary.error +
        (main_step f w st p).summary.skipped =
      st.summary.updated + st.summary.error + st.summary.skipped + 1 := by
  unfold main_step
  by_cases h : extractTicker p = ""
  · simp [h]; omega
  · simp only [h, if_false, if_neg h]
    cases f (extractTicker p) with
    | none => simp; omega
    | some d =>
      by_cases hd : 0 < d.currentPrice <;> by_cases hw : w p.pageId <;>
        simp [hd, hw] <;> omega

/-- Summed counters grow by exactly one per page across the loop. -/
theorem main_foldl_summary_total (f : String → Option StockData) (w : Nat → Bool)
    (pages : List NotionPage) : ∀ st : LoopState,
    (pages.foldl (main_step f w) st).summary.updated +
        (pages.foldl (main_step f w) st).summary.error +
        (pages.foldl (main_step f w) st).summary.skipped =
      st.summary.updated + st.summary.error + st.summary.skipped + pages.length := by
  induction pages with
  | nil => intro st; simp
  | cons p rest ih =>
    intro st
    simp only [List.foldl_cons, List.length_cons]
    rw [ih, main_step_summary_total]
    omega

/-! ## Claim theorems -/

/-- Claim C1, counterexample: when the quote endpoint returns a present
result whose `currentPrice` is 0 (≤ 0) with a non-null previous close,
the symbol is reported as failed even though the chart fallback — which
here holds valid data — is never consulted.  This refutes the claim
that the fallback endpoint is always consulted before a symbol is
reported failed whenever the primary result is absent or has
`currentPrice ≤ 0`. -/
theorem C1_counterexample :
    resolvedOk (get_stock_data oracleZeroPrice).1 = false ∧
    ¬ ((get_stock_data oracleZeroPrice).2 = true) := by
  decide

/-- Claim C1, amended: the chart fallback is consulted whenever the
quote result is entirely absent, and whenever it is present with a null
`currentPrice` or a null `previousClose`; but a quote present with a
non-null `currentPrice ≤ 0` and a non-null `previousClose` is returned
without consulting the chart, and such a symbol is then classified as
failed. -/
theorem C1_fallback_coverage :
    (∀ cres, (attemptOnce none cres).2 = true) ∧
    (∀ q cres, (q.currentPrice = none ∨ q.previousClose = none) →
        (attemptOnce (some q) cres).2 = true) ∧
    (∀ q cres p, q.currentPrice = some p → p ≤ 0 →
        q.previousClose.isSome = true →
        (attemptOnce (some q) cres).2 = false ∧
        resolvedOk (attemptOnce (some q) cres).1 = false) := by
  refine ⟨?_, ?_, ?_⟩
  · intro cres; cases cres <;> rfl
  · intro q cres h
    rcases h with h | h <;> simp [attemptOnce, h]
  · intro q cres p hcp hle hpc
    rcases Option.isSome_iff_exists.mp hpc with ⟨pc, hpc2⟩
    have hnot : ¬ (0 : ℚ) < p := not_lt.mpr hle
    constructor
    · simp [attemptOnce, hcp, hpc2]
    · simp [attemptOnce, hcp, hpc2, resolvedOk, normalizeData, hnot]

/-- Claim C1, witness: the second and third parts applied at concrete
inputs. -/
theorem C1_fallback_coverage_witness :
    ((attemptOnce (some ⟨some 10, none, 0⟩) none).2 = true) ∧
    ((attemptOnce (some ⟨some 0, some 1, 0⟩) none).2 = false ∧
      resolvedOk (attemptOnce (some ⟨some 0, some 1, 0⟩) none).1 = false) :=
  ⟨C1_fallback_coverage.2.1 ⟨some 10, none, 0⟩ none (Or.inr rfl),
   C1_fallback_coverage.2.2 ⟨some 0, some 1, 0⟩ none 0 rfl (by norm_num) rfl⟩

/-- Claim C6, counterexample: a quote-endpoint result with a valid
`currentPrice` of 10 (> 0) but a null `previousClose` does consult the
chart fallback, refuting the claim that a valid primary quote
short-circuits every fallback. -/
theorem C6_counterexample :
    (0 : ℚ) < 10 ∧
    ¬ ((attemptOnce (some ⟨some 10, none, 0⟩)
          (some ⟨some 8, some 7, 0⟩)).2 = false) := by
  refine ⟨by norm_num, ?_⟩
  decide

/-- Claim C6, amended: no fallback adapter is consulted for a symbol
exactly when the primary quote result has both a non-null
`currentPrice` and a non-null `previousClose`; a valid quote missing
`previousClose` still consults the chart endpoint to backfill the
missing field. -/
theorem C6_short_circuit :
    ∀ q cres, q.currentPrice.isSome = true → q.previousClose.isSome = true →
      (attemptOnce (some q) cres).2 = false := by
  intro q cres hcp hpc
  rcases Option.isSome_iff_exists.mp hcp with ⟨cp, h1⟩
  rcases Option.isSome_iff_exists.mp hpc with ⟨pc, h2⟩
  simp [attemptOnce, h1, h2]

/-- Claim C6, witness: the amended short-circuit at a concrete quote. -/
theorem C6_short_circuit_witness :
    (attemptOnce (some ⟨some 10, some 9, 0⟩) (some ⟨some 8, some 7, 0⟩)).2 = false :=
  C6_short_circuit ⟨some 10, some 9, 0⟩ (some ⟨some 8, some 7, 0⟩) rfl rfl

/-- Claim C3: whenever the quote entering the number-cleanup step has a
missing or non-positive `previousClose`, the returned record stores
`previousClose = currentPrice`; on the concrete quote with
`currentPrice = 50` and `previousClose = 0`, the stored previous close
is 50 and the computed change percentage is 0. -/
theorem C3_prev_close_default :
    (∀ d : RawQuote,
        (d.previousClose = none ∨ ∃ p, d.previousClose = some p ∧ p ≤ 0) →
        (normalizeData d).previousClose = (normalizeData d).currentPrice) ∧
    ((normalizeData ⟨some 50, some 0, 0⟩).previousClose = 50 ∧
      change_percent (normalizeData ⟨some 50, some 0, 0⟩) = 0) := by
  refine ⟨?_, ?_, ?_⟩
  · intro d h
    rcases h with h | ⟨p, hp, hle⟩
    · simp [normalizeData, h]
    · simp [normalizeData, hp, if_neg (not_lt.mpr hle)]
  · decide
  · norm_num [change_percent, normalizeData, pyRound2, pyRound]

/-- Claim C3, witness: the default applied at the concrete quote
`{currentPrice := 50, previousClose := 0}`. -/
theorem C3_prev_close_default_witness :
    (normalizeData ⟨some 50, some 0, 0⟩).previousClose =
      (normalizeData ⟨some 50, some 0, 0⟩).currentPrice :=
  C3_prev_close_default.1 ⟨some 50, some 0, 0⟩ (Or.inr ⟨0, rfl, le_refl 0⟩)

/-- Claim C8, counterexample: the properties payload includes the
wall-clock update timestamp, so two applications of the same resolved
record at different times produce different written field values,
refuting literal equality of the two writes. -/
theorem C8_counterexample :
    ¬ (update_notion_props ⟨50, 50, 0⟩ 0 = update_notion_props ⟨50, 50, 0⟩ 1) := by
  decide

/-- Claim C8, amended: the write-back payload is a pure function of the
resolved record and the write time — re-applying the same resolution
result yields identical price, previous-close and market-cap field
values (no accumulation and no dependence on prior record state), while
the update-timestamp field always equals the wall-clock time of that
particular write. -/
theorem C8_write_fields_pure :
    ∀ (sd : StockData) (t1 t2 : Nat),
      (update_notion_props sd t1).price = (update_notion_props sd t2).price ∧
      (update_notion_props sd t1).prevClose = (update_notion_props sd t2).prevClose ∧
      (update_notion_props sd t1).marketCapField =
        (update_notion_props sd t2).marketCapField ∧
      (update_notion_props sd t1).updatedAt = t1 := by
  intro sd t1 t2
  exact ⟨rfl, rfl, rfl, rfl⟩

/-- Claim C9: for a positive raw market cap the stored unit is the
half-even rounding of the raw value divided by 100,000,000; a
non-positive raw market cap is stored as 0; an absent provider market
cap enters the pipeline as 0; and raw 250,000,000,000 is stored as
2500. -/
theorem C9_market_cap_scaling :
    (∀ d : RawQuote, 0 < d.marketCap →
        (normalizeData d).marketCap = pyRound ((d.marketCap : ℚ) / 100000000)) ∧
    (∀ d : RawQuote, d.marketCap ≤ 0 → (normalizeData d).marketCap = 0) ∧
    (∀ cp pc rest, fetch_from_quote (.ok ⟨⟨cp, pc, none⟩ :: rest⟩) =
        some ⟨cp, pc, 0⟩) ∧
    (normalizeData ⟨some 1, some 1, 250000000000⟩).marketCap = 2500 := by
  refine ⟨?_, ?_, ?_, ?_⟩
  · intro d h; simp [normalizeData, if_pos h]
  · intro d h; simp [normalizeData, if_neg (not_lt.mpr h)]
  · intro cp pc rest; rfl
  · norm_num [normalizeData, pyRound]

/-- Claim C9, witness: the positive-scaling clause applied at raw
market cap 200,000,000. -/
theorem C9_market_cap_scaling_witness :
    (normalizeData ⟨some 1, some 1, 200000000⟩).marketCap =
      pyRound (((200000000 : ℤ) : ℚ) / 100000000) :=
  C9_market_cap_scaling.1 ⟨some 1, some 1, 200000000⟩ (by decide)

set_option maxRecDepth 40000 in
/-- Claim C2, counterexample: with 95 pages carrying 95 distinct
symbols, the run dispatches 95 provider requests of one symbol each —
not 3 chunks of sizes 40, 40 and 15 — because the loop calls the
resolver once per record and performs no chunking. -/
theorem C2_counterexample :
    (dispatchedBatches (fun _ => none) (fun _ => true) pages95).length = 95 ∧
    ¬ ((dispatchedBatches (fun _ => none) (fun _ => true) pages95).length = 3) ∧
    ((dispatchedBatches (fun _ => none) (fun _ => true) pages95).all
        (fun b => b.length == 1)) = true := by
  decide

/-- Claim C2, amended: the run performs no batch partitioning — it
dispatches exactly one single-symbol request per page with a non-empty
ticker, so the number of dispatched requests equals the number of
non-skipped pages and every dispatched request carries exactly one
symbol. -/
theorem C2_dispatch_shape :
    ∀ (f : String → Option StockData) (w : Nat → Bool) (pages : List NotionPage),
      (dispatchedBatches f w pages).length =
        ((pages.map extractTicker).filter (fun t => !(t == ""))).length ∧
      ∀ b ∈ dispatchedBatches f w pages, b.length = 1 := by
  intro f w pages
  constructor
  · simp [dispatchedBatches, main_run, main_foldl_fetches]
  · intro b hb
    rcases List.mem_map.mp hb with ⟨t, ht, rfl⟩
    rfl

/-- Claim C2, witness: the amended dispatch shape at a one-page run. -/
theorem C2_dispatch_shape_witness :
    (dispatchedBatches (fun _ => none) (fun _ => true)
        [⟨5, some "MSFT"⟩]).length =
      ((([⟨5, some "MSFT"⟩] : List NotionPage).map extractTicker).filter
          (fun t => !(t == ""))).length ∧
    (["MSFT"] : List String).length = 1 :=
  ⟨(C2_dispatch_shape (fun _ => none) (fun _ => true) [⟨5, some "MSFT"⟩]).1,
   (C2_dispatch_shape (fun _ => none) (fun _ => true) [⟨5, some "MSFT"⟩]).2
      ["MSFT"] (by decide)⟩

/-- Claim C4: on the concrete three-record run where only the middle
symbol fails resolution, the other two records are written and the
summary is `updated = 2, error = 1, skipped = 0`; moreover a failed
resolution or a failed write-back only increments the error counter of
its own iteration, and processing a concatenation of pages always
continues into the suffix from wherever the prefix left off (no early
abort). -/
theorem C4_reconciliation_exhaustive :
    ((main_run fetch3 (fun _ => true) pages3).summary = ⟨2, 1, 0⟩ ∧
      (main_run fetch3 (fun _ => true) pages3).writes = [(1, sdTen), (3, sdTen)]) ∧
    (∀ f w st p, extractTicker p ≠ "" → f (extractTicker p) = none →
        main_step f w st p =
          { st with fetches := st.fetches ++ [extractTicker p],
                    summary := { st.summary with error := st.summary.error + 1 } }) ∧
    (∀ f w st p d, extractTicker p ≠ "" → f (extractTicker p) = some d →
        0 < d.currentPrice → w p.pageId = false →
        main_step f w st p =
          { st with fetches := st.fetches ++ [extractTicker p],
                    writes := st.writes ++ [(p.pageId, d)],
                    summary := { st.summary with error := st.summary.error + 1 } }) ∧
    (∀ f w (pre post : List NotionPage),
        main_run f w (pre ++ post) = post.foldl (main_step f w) (main_run f w pre)) := by
  refine ⟨⟨by decide, by decide⟩, ?_, ?_, ?_⟩
  · intro f w st p h1 h2
    simp [main_step, h1, h2]
  · intro f w st p d h1 h2 h3 h4
    simp [main_step, h1, h2, h3, h4]
  · intro f w pre post
    simp [main_run, List.foldl_append]

/-- Claim C4, witness: the failed-resolution clause applied at a
concrete page and state. -/
theorem C4_reconciliation_exhaustive_witness :
    main_step (fun _ => none) (fun _ => true) ⟨⟨0, 0, 0⟩, [], []⟩
        ⟨7, some "ZZZ"⟩ = ⟨⟨0, 1, 0⟩, ["ZZZ"], []⟩ :=
  (C4_reconciliation_exhaustive.2.1 (fun _ => none) (fun _ => true)
      ⟨⟨0, 0, 0⟩, [], []⟩ ⟨7, some "ZZZ"⟩ (by decide) rfl).trans (by decide)

/-- Claim C5, counterexample: two records carrying the same symbol
AAPL trigger two fetches of AAPL in one run (the run performs no
de-duplication), refuting the claim that each distinct symbol is
fetched at most once per run; both records are nonetheless updated. -/
theorem C5_counterexample :
    ((main_run (fun _ => some sdTen) (fun _ => true) dupPages).fetches.count
        "AAPL" = 2) ∧
    ¬ ((main_run (fun _ => some sdTen) (fun _ => true) dupPages).fetches.count
        "AAPL" ≤ 1) ∧
    (main_run (fun _ => some sdTen) (fun _ => true) dupPages).writes =
      [(1, sdTen), (2, sdTen)] := by
  decide

/-- Claim C5, amended: symbols are not de-duplicated — the run issues
exactly one fetch per non-skipped record, in record order (so a symbol
appearing on k records is fetched k times), and every non-skipped
record whose symbol resolves to a valid record receives its own
write-back. -/
theorem C5_per_record_fetch :
    ∀ (f : String → Option StockData) (w : Nat → Bool) (pages : List NotionPage),
      (main_run f w pages).fetches =
        (pages.map extractTicker).filter (fun t => !(t == "")) ∧
      (∀ p ∈ pages, ∀ d, extractTicker p ≠ "" → f (extractTicker p) = some d →
          0 < d.currentPrice → (p.pageId, d) ∈ (main_run f w pages).writes) := by
  intro f w pages
  constructor
  · simpa using main_foldl_fetches f w pages ⟨⟨0, 0, 0⟩, [], []⟩
  · have key : ∀ (ps : List NotionPage) (st : LoopState), ∀ p ∈ ps, ∀ d,
        extractTicker p ≠ "" → f (extractTicker p) = some d →
        0 < d.currentPrice →
        (p.pageId, d) ∈ (ps.foldl (main_step f w) st).writes := by
      intro ps
      induction ps with
      | nil => intro st p hp; simp at hp
      | cons q rest ih =>
        intro st p hp d h1 h2 h3
        rcases List.mem_cons.mp hp with rfl | hp2
        · exact main_foldl_writes_subset f w rest (main_step f w st p) _
            (main_step_writes_hit f w st p d h1 h2 h3)
        · exact ih (main_step f w st q) p hp2 d h1 h2 h3
    intro p hp d h1 h2 h3
    exact key pages ⟨⟨0, 0, 0⟩, [], []⟩ p hp d h1 h2 h3

/-- Claim C5, witness: the per-record write clause at a one-page run. -/
theorem C5_per_record_fetch_witness :
    (1, sdTen) ∈ (main_run (fun _ => some sdTen) (fun _ => true)
        [⟨1, some "AAPL"⟩]).writes :=
  (C5_per_record_fetch (fun _ => some sdTen) (fun _ => true)
      [⟨1, some "AAPL"⟩]).2 ⟨1, some "AAPL"⟩ (by decide) sdTen (by decide) rfl
      (by decide)

/-- Claim C7: each provider fetch helper issues exactly one transport
request per invocation (no internal retry beyond the retry budget of 5
configured in the shared session), and every failure mode — transport
error, empty quote result, empty chart result, empty chart quote list,
or a close array with no valid entry — yields `none` instead of an
exception. -/
theorem C7_adapter_single_shot :
    (∀ s, (fetch_from_quote_requests s).length = 1) ∧
    (∀ s, (fetch_from_chart_requests s).length = 1) ∧
    build_session_retry.total = 5 ∧
    (∀ e, fetch_from_quote (.error e) = none) ∧
    fetch_from_quote (.ok ⟨[]⟩) = none ∧
    (∀ e, fetch_from_chart (.error e) = none) ∧
    fetch_from_chart (.ok ⟨[]⟩) = none ∧
    (∀ rest, fetch_from_chart (.ok ⟨⟨[]⟩ :: rest⟩) = none) ∧
    (∀ (n : Nat) r2 r3,
        fetch_from_chart (.ok ⟨⟨⟨List.replicate n none⟩ :: r2⟩ :: r3⟩) = none) := by
  refine ⟨fun s => rfl, fun s => rfl, rfl, fun e => rfl, rfl, fun e => rfl, rfl,
    fun rest => rfl, ?_⟩
  intro n r2 r3
  have hnil : (List.replicate n (none : Option ℚ)).filterMap id = [] := by
    induction n with
    | zero => rfl
    | succ k ih => simp [List.replicate_succ, ih]
  simp [fetch_from_chart, hnil]

/-- Claim C10: every page increments exactly one of the three counters,
so at the end of any run the three counters sum to the number of pages
fetched from the database. -/
theorem C10_counters_partition :
    ∀ (f : String → Option StockData) (w : Nat → Bool) (pages : List NotionPage),
      (main_run f w pages).summary.updated + (main_run f w pages).summary.error +
          (main_run f w pages).summary.skipped = pages.length := by
  intro f w pages
  exact (main_foldl_summary_total f w pages ⟨⟨0, 0, 0⟩, [], []⟩).trans (by simp)
